import Mathlib

/-!
Verification of the vue3-composables repository: a shallow embedding of the
two composables, `useProvider` (src/unnamed/part_000) and `useRefState`
(src/packages/use-ref-state/index.ts), together with theorems settling the
spec claims about them.

JavaScript runtime values are modelled by the inductive type `JSValue`;
object and function identity is modelled by an abstract numeric id, and the
behaviour of a function value is looked up in a function environment
`FnEnv`. The host-framework primitives the composables call (`inject`,
`ref`, `readonly`) are embedded with the documented Vue semantics: `inject`
is a keyed lookup along the provide chain returning `undefined` when no
value is published, `ref` allocates a fresh mutable cell, and a `readonly`
wrapper silently ignores runtime writes while the underlying cell stays
mutable through the setter.
-/

/-- A JavaScript runtime value. Reference values (objects, functions) carry
an abstract identity so that identity preservation is expressible. -/
inductive JSValue where
  | undef
  | null
  | boolVal (b : Bool)
  | numVal (n : Int)
  | nanVal
  | strVal (s : String)
  | objVal (id : Nat)
  | fnVal (id : Nat)
deriving DecidableEq, Repr

/-- The JavaScript `typeof` operator on modelled values. -/
def typeof : JSValue → String
  | .undef => "undefined"
  | .null => "object"
  | .boolVal _ => "boolean"
  | .numVal _ => "number"
  | .nanVal => "number"
  | .strVal _ => "string"
  | .objVal _ => "object"
  | .fnVal _ => "function"

/-- JavaScript truthiness: the condition tested by `if (!ctx)` in the
source. The falsy values are `undefined`, `null`, `false`, `0`, `NaN` and
the empty string; every object and function is truthy. -/
def truthy : JSValue → Bool
  | .undef => false
  | .null => false
  | .boolVal b => b
  | .numVal n => n != 0
  | .nanVal => false
  | .strVal s => s != ""
  | .objVal _ => true
  | .fnVal _ => true

/-- The exact error message built by `useProvider` in the source:
`Incorrect use of provider ${providerKey}. You may have forgotten to wrap
it in the corresponding component.` -/
def errorMessage (providerKey : String) : String :=
  "Incorrect use of provider " ++ providerKey ++
    ". You may have forgotten to wrap it in the corresponding component."

/-- The ambient provide registry seen by a consumer component: the keyed
values published by its ancestors, nearest ancestor first. -/
def Registry := List (String × JSValue)

/-- Vue `inject` without a default value: return the value published under
the key by the nearest ancestor, or `undefined` when none is published. -/
def inject (registry : Registry) (key : String) : JSValue :=
  (List.lookup key registry).getD JSValue.undef

/-- Embedding of `useProvider` from src/unnamed/part_000: inject the key,
throw the descriptive error when the injected value is falsy (`!ctx`),
otherwise return the injected value unchanged. A thrown error is modelled
as `Except.error` carrying the message. -/
def useProvider (registry : Registry) (providerKey : String) :
    Except String JSValue :=
  let ctx := inject registry providerKey
  if !(truthy ctx) then
    Except.error (errorMessage providerKey)
  else
    Except.ok ctx

/-- Claim C1 as stated is false: the value `0` is published under the key
`"k"` and is neither `null` nor `undefined`, yet `useProvider` throws the
not-found error instead of returning it, because the presence check
`!ctx` also rejects falsy values. -/
theorem c1_counterexample :
    List.lookup "k" [("k", JSValue.numVal 0)] = some (JSValue.numVal 0) ∧
    JSValue.numVal 0 ≠ JSValue.null ∧
    JSValue.numVal 0 ≠ JSValue.undef ∧
    useProvider [("k", JSValue.numVal 0)] "k" =
      Except.error (errorMessage "k") := by
  refine ⟨by decide, by decide, by decide, ?_⟩
  rfl

/-- Claim C1, amended: for every key `k` and every truthy value `v`
published by an ancestor under `k`, `useProvider k` returns exactly `v`,
the same value as published, with no copying or transformation. -/
theorem c1_truthy_value_returned (registry : Registry) (k : String)
    (v : JSValue) (hfound : List.lookup k registry = some v)
    (htruthy : truthy v = true) :
    useProvider registry k = Except.ok v := by
  simp [useProvider, inject, hfound, htruthy]

/-- Witness for the amended claim C1 at a concrete published object. -/
theorem c1_witness :
    List.lookup "user" [("user", JSValue.objVal 7)] =
      some (JSValue.objVal 7) ∧
    truthy (JSValue.objVal 7) = true ∧
    useProvider [("user", JSValue.objVal 7)] "user" =
      Except.ok (JSValue.objVal 7) :=
  ⟨by decide, by decide,
    c1_truthy_value_returned [("user", JSValue.objVal 7)] "user"
      (JSValue.objVal 7) (by decide) (by decide)⟩

/-- Claim C2 as stated is false: the value `false` is published under the
key `"flag"` and is neither `null` nor `undefined`, yet `useProvider`
fails, so the failure condition is not exactly "missing or
null/undefined". -/
theorem c2_counterexample :
    List.lookup "flag" [("flag", JSValue.boolVal false)] =
      some (JSValue.boolVal false) ∧
    JSValue.boolVal false ≠ JSValue.null ∧
    JSValue.boolVal false ≠ JSValue.undef ∧
    useProvider [("flag", JSValue.boolVal false)] "flag" =
      Except.error (errorMessage "flag") := by
  refine ⟨by decide, by decide, by decide, ?_⟩
  rfl

/-- Claim C2, amended: `useProvider k` fails exactly when the value
injected for `k` is falsy (missing, `null`, `undefined`, `false`, `0`,
`NaN` or the empty string); the only error is the fixed message, which
contains the key followed by the remediation hint; and publishing `null`
or `undefined` under `k` is observably identical to not publishing at
all. -/
theorem c2_fails_iff_falsy (registry : Registry) (k : String) :
    ((∃ e, useProvider registry k = Except.error e) ↔
      truthy (inject registry k) = false) ∧
    (∀ e, useProvider registry k = Except.error e → e = errorMessage k) ∧
    (∃ pre post, errorMessage k = pre ++ k ++ post ∧
      post = ". You may have forgotten to wrap it in the corresponding component.") ∧
    useProvider ((k, JSValue.null) :: registry) k = useProvider [] k ∧
    useProvider ((k, JSValue.undef) :: registry) k = useProvider [] k := by
  refine ⟨?_, ?_, ?_, ?_, ?_⟩
  · by_cases h : truthy (inject registry k) <;> simp [useProvider, h]
  · intro e he
    by_cases h : truthy (inject registry k) <;>
      simp [useProvider, h] at he <;> simp [he]
  · exact ⟨"Incorrect use of provider ",
      ". You may have forgotten to wrap it in the corresponding component.",
      rfl, rfl⟩
  · simp [useProvider, inject, List.lookup, truthy]
  · simp [useProvider, inject, List.lookup, truthy]

/-- Witness for the amended claim C2: publishing `null` under a key is
observably identical to not publishing at all. -/
theorem c2_witness :
    useProvider [("w", JSValue.null)] "w" = useProvider [] "w" :=
  (c2_fails_iff_falsy [] "w").2.2.2.1

/-- Claim C3: a falsy published value that is not `null` or `undefined`
(such as `0`, the empty string, `false` or `NaN`) makes `useProvider`
raise the not-found error instead of returning the value, because the
presence check is a general falsiness test. -/
theorem c3_falsy_value_raises (registry : Registry) (k : String)
    (v : JSValue) (hfound : List.lookup k registry = some v)
    (hfalsy : truthy v = false) (_hnn : v ≠ JSValue.null)
    (_hnu : v ≠ JSValue.undef) :
    useProvider registry k = Except.error (errorMessage k) := by
  simp [useProvider, inject, hfound, hfalsy]

/-- Witness for claim C3 at the published empty string. -/
theorem c3_witness :
    List.lookup "s" [("s", JSValue.strVal "")] = some (JSValue.strVal "") ∧
    truthy (JSValue.strVal "") = false ∧
    useProvider [("s", JSValue.strVal "")] "s" =
      Except.error (errorMessage "s") :=
  ⟨by decide, by decide,
    c3_falsy_value_raises [("s", JSValue.strVal "")] "s"
      (JSValue.strVal "") (by decide) (by decide) (by decide) (by decide)⟩

/-- Behaviour environment for modelled function values: the function with
identity `id` applied to an argument yields `env id arg`. -/
def FnEnv := Nat → JSValue → JSValue

/-- Calling a modelled value as a function: function values run their
behaviour from the environment. The non-function arm is unreachable in the
embedded code, which only calls values it has checked to be functions. -/
def applyFn (env : FnEnv) (f arg : JSValue) : JSValue :=
  match f with
  | .fnVal id => env id arg
  | _ => JSValue.undef

/-- Embedding of `setterIsFunction` from src/packages/use-ref-state:
the runtime discriminant `typeof value === "function"`. -/
def setterIsFunction (value : JSValue) : Bool :=
  typeof value == "function"

/-- A heap of reactive cells: `nextId` is the next fresh cell id, `cells`
gives every cell its current value. -/
structure Store where
  nextId : Nat
  cells : Nat → JSValue

/-- The store with no cells allocated yet. -/
def emptyStore : Store :=
  ⟨0, fun _ => JSValue.undef⟩

/-- Vue `ref(initialValue)`: allocate a fresh reactive cell holding the
initial value and return its id alongside the grown store. -/
def refAlloc (s : Store) (v : JSValue) : Store × Nat :=
  (⟨s.nextId + 1, fun i => if i = s.nextId then v else s.cells i⟩, s.nextId)

/-- Read the current value of a cell. -/
def readCell (s : Store) (id : Nat) : JSValue :=
  s.cells id

/-- Overwrite the current value of a cell. -/
def writeCell (s : Store) (id : Nat) (v : JSValue) : Store :=
  ⟨s.nextId, fun i => if i = id then v else s.cells i⟩

/-- The handle returned to the caller: a view onto a cell, wrapped in
`readonly` when `isReadonly` is true. -/
structure RefStateHandle where
  cellId : Nat
  isReadonly : Bool
deriving DecidableEq, Repr

/-- The pair returned by one `useRefState` invocation: the handle and the
cell the returned `setState` closure mutates. -/
structure RefState where
  handle : RefStateHandle
  setterCell : Nat
deriving DecidableEq, Repr

/-- Embedding of `useRefState` from src/packages/use-ref-state/index.ts:
`const state = ref(initialValue)` allocates a fresh cell; the returned
pair is `[asReadonly ? readonly(state) : state, setState]`, where both the
handle and the setter refer to that same cell. An omitted `initialValue`
is the JavaScript `undefined`. -/
def useRefState (s : Store) (initialValue : JSValue) (asReadonly : Bool) :
    Store × RefState :=
  let r := refAlloc s initialValue
  (r.1, ⟨⟨r.2, asReadonly⟩, r.2⟩)

/-- `useRefState` with the `asReadonly` parameter omitted: the source
default is `asReadonly = true`. -/
def useRefStateDefault (s : Store) (initialValue : JSValue) :
    Store × RefState :=
  useRefState s initialValue true

/-- `useRefState()` with both parameters omitted: the cell starts holding
`undefined` and the handle is read-only. -/
def useRefStateNoArgs (s : Store) : Store × RefState :=
  useRefState s JSValue.undef true

/-- Embedding of the `setState` closure: if the argument passes the
`setterIsFunction` check, the cell is set to the result of calling the
argument on the current cell value; otherwise the cell is set to the
argument itself. -/
def setState (env : FnEnv) (s : Store) (rs : RefState) (setter : JSValue) :
    Store :=
  if setterIsFunction setter then
    writeCell s rs.setterCell (applyFn env setter (readCell s rs.setterCell))
  else
    writeCell s rs.setterCell setter

/-- Reading the current value through the returned handle. A read-only
wrapper does not change what reads observe. -/
def handleRead (s : Store) (h : RefStateHandle) : JSValue :=
  readCell s h.cellId

/-- A direct runtime assignment `handle.value = v` through the returned
handle. Per the documented Vue semantics of `readonly`, a write through a
read-only wrapper is silently ignored at runtime (the cell keeps its
value); through a plain ref the cell is overwritten. -/
def handleAssign (s : Store) (h : RefStateHandle) (v : JSValue) : Store :=
  if h.isReadonly then s else writeCell s h.cellId v

/-- A mutation observable on one paired state: either an invocation of its
setter or a direct runtime assignment through its handle. -/
inductive Mutation where
  | set (arg : JSValue)
  | assign (v : JSValue)

/-- Apply one mutation to the store through a given paired state. -/
def applyMutation (env : FnEnv) (rs : RefState) (s : Store) :
    Mutation → Store
  | .set arg => setState env s rs arg
  | .assign v => handleAssign s rs.handle v

/-- Apply a sequence of mutations, in order, through a given paired
state. -/
def applyMutations (env : FnEnv) (rs : RefState) (s : Store)
    (ms : List Mutation) : Store :=
  ms.foldl (applyMutation env rs) s

theorem readCell_writeCell_same (s : Store) (i : Nat) (v : JSValue) :
    readCell (writeCell s i v) i = v := by
  simp [readCell, writeCell]

theorem readCell_writeCell_ne (s : Store) (i j : Nat) (v : JSValue)
    (h : j ≠ i) : readCell (writeCell s i v) j = readCell s j := by
  simp [readCell, writeCell, h]

theorem writeCell_writeCell_same (s : Store) (i : Nat) (v w : JSValue) :
    writeCell (writeCell s i v) i w = writeCell s i w := by
  simp only [writeCell]
  congr 1
  funext j
  by_cases h : j = i <;> simp [h]

/-- Claim C4: invoking the setter with a literal (non-callable) value `y`
sets the cell so that the handle reads `y`, and repeating the identical
set is idempotent, leaving the whole store unchanged. -/
theorem c4_literal_set_idempotent (env : FnEnv) (s : Store) (rs : RefState)
    (hshare : rs.handle.cellId = rs.setterCell) (y : JSValue)
    (hlit : setterIsFunction y = false) :
    handleRead (setState env s rs y) rs.handle = y ∧
    setState env (setState env s rs y) rs y = setState env s rs y := by
  constructor
  · simp [handleRead, setState, hlit, hshare, readCell_writeCell_same]
  · simp [setState, hlit, writeCell_writeCell_same]

/-- Witness for claim C4: setting the literal `5` on a cell created with
initial value `0` makes the handle read `5`, and the set is idempotent. -/
theorem c4_witness :
    handleRead
      (setState (fun _ _ => JSValue.undef)
        (useRefState emptyStore (JSValue.numVal 0) true).1
        (useRefState emptyStore (JSValue.numVal 0) true).2
        (JSValue.numVal 5))
      (useRefState emptyStore (JSValue.numVal 0) true).2.handle
      = JSValue.numVal 5 ∧
    setState (fun _ _ => JSValue.undef)
      (setState (fun _ _ => JSValue.undef)
        (useRefState emptyStore (JSValue.numVal 0) true).1
        (useRefState emptyStore (JSValue.numVal 0) true).2
        (JSValue.numVal 5))
      (useRefState emptyStore (JSValue.numVal 0) true).2
      (JSValue.numVal 5)
      = setState (fun _ _ => JSValue.undef)
        (useRefState emptyStore (JSValue.numVal 0) true).1
        (useRefState emptyStore (JSValue.numVal 0) true).2
        (JSValue.numVal 5) :=
  c4_literal_set_idempotent (fun _ _ => JSValue.undef)
    (useRefState emptyStore (JSValue.numVal 0) true).1
    (useRefState emptyStore (JSValue.numVal 0) true).2
    rfl (JSValue.numVal 5) (by decide)

/-- Claim C5: invoking the setter with a function value sets the cell to
the result of applying that function to the current cell value, which the
handle then reads. -/
theorem c5_functional_update (env : FnEnv) (s : Store) (rs : RefState)
    (hshare : rs.handle.cellId = rs.setterCell) (f : JSValue)
    (hfn : setterIsFunction f = true) :
    handleRead (setState env s rs f) rs.handle =
      applyFn env f (readCell s rs.setterCell) := by
  simp [handleRead, setState, hfn, hshare, readCell_writeCell_same]

/-- Witness for claim C5: on a cell created with initial value `1`,
invoking the setter with an increment function yields `2`, matching the
spec example. -/
theorem c5_witness :
    handleRead
      (setState
        (fun _ v => match v with
          | JSValue.numVal n => JSValue.numVal (n + 1)
          | _ => JSValue.undef)
        (useRefState emptyStore (JSValue.numVal 1) true).1
        (useRefState emptyStore (JSValue.numVal 1) true).2
        (JSValue.fnVal 0))
      (useRefState emptyStore (JSValue.numVal 1) true).2.handle
      = applyFn
        (fun _ v => match v with
          | JSValue.numVal n => JSValue.numVal (n + 1)
          | _ => JSValue.undef)
        (JSValue.fnVal 0)
        (readCell (useRefState emptyStore (JSValue.numVal 1) true).1
          (useRefState emptyStore (JSValue.numVal 1) true).2.setterCell) ∧
    applyFn
      (fun _ v => match v with
        | JSValue.numVal n => JSValue.numVal (n + 1)
        | _ => JSValue.undef)
      (JSValue.fnVal 0)
      (readCell (useRefState emptyStore (JSValue.numVal 1) true).1
        (useRefState emptyStore (JSValue.numVal 1) true).2.setterCell)
      = JSValue.numVal 2 :=
  ⟨c5_functional_update
    (fun _ v => match v with
      | JSValue.numVal n => JSValue.numVal (n + 1)
      | _ => JSValue.undef)
    (useRefState emptyStore (JSValue.numVal 1) true).1
    (useRefState emptyStore (JSValue.numVal 1) true).2
    rfl (JSValue.fnVal 0) (by decide), rfl⟩

/-- Claim C6: the setter distinguishes the two forms solely by the runtime
discriminant `typeof value === "function"`; a callable argument is always
routed through the updater branch, a non-callable one through the literal
branch; and whenever the cell holds a function value right after a set,
the argument was callable and was applied as an updater, so a
function-typed literal can never enter the cell through the setter. -/
theorem c6_callable_discriminant (env : FnEnv) (s : Store) (rs : RefState)
    (v : JSValue) :
    (setterIsFunction v = true ↔ typeof v = "function") ∧
    (setterIsFunction v = true →
      setState env s rs v =
        writeCell s rs.setterCell
          (applyFn env v (readCell s rs.setterCell))) ∧
    (setterIsFunction v = false →
      setState env s rs v = writeCell s rs.setterCell v) ∧
    (setterIsFunction (readCell (setState env s rs v) rs.setterCell) =
        true →
      setterIsFunction v = true ∧
      readCell (setState env s rs v) rs.setterCell =
        applyFn env v (readCell s rs.setterCell)) := by
  refine ⟨?_, ?_, ?_, ?_⟩
  · simp [setterIsFunction]
  · intro h
    simp [setState, h]
  · intro h
    simp [setState, h]
  · intro h
    cases hv : setterIsFunction v
    · rw [setState, if_neg (by simp [hv]), readCell_writeCell_same] at h
      rw [hv] at h
      exact absurd h (by decide)
    · exact ⟨rfl, by simp [setState, hv, readCell_writeCell_same]⟩

/-- Witness for claim C6: after setting with the function value of id 3
under an environment whose functions all return the function value of id
7, the cell holds a function value, and it is the applied result, not the
argument stored as a literal. -/
theorem c6_witness :
    setterIsFunction (JSValue.fnVal 3) = true ∧
    readCell
      (setState (fun _ _ => JSValue.fnVal 7)
        (useRefState emptyStore JSValue.undef true).1
        (useRefState emptyStore JSValue.undef true).2
        (JSValue.fnVal 3))
      (useRefState emptyStore JSValue.undef true).2.setterCell
      = applyFn (fun _ _ => JSValue.fnVal 7) (JSValue.fnVal 3)
        (readCell (useRefState emptyStore JSValue.undef true).1
          (useRefState emptyStore JSValue.undef true).2.setterCell) :=
  (c6_callable_discriminant (fun _ _ => JSValue.fnVal 7)
    (useRefState emptyStore JSValue.undef true).1
    (useRefState emptyStore JSValue.undef true).2
    (JSValue.fnVal 3)).2.2.2 (by decide)

/-- Claim C7: the handle and setter returned by one `useRefState`
invocation share the same underlying cell; the setter mutates that cell
regardless of the access mode, every mutation through the setter is
immediately visible through the handle, and in mutable mode a direct
assignment through the handle is immediately reflected in handle reads and
in the setter view of the current value. -/
theorem c7_shared_cell (env : FnEnv) (s s1 : Store) (rs : RefState)
    (init w : JSValue) (ro : Bool)
    (hcreate : useRefState s init ro = (s1, rs)) :
    rs.handle.cellId = rs.setterCell ∧
    rs.handle.isReadonly = ro ∧
    (∀ a, handleRead (setState env s1 rs a) rs.handle =
      (if setterIsFunction a
        then applyFn env a (handleRead s1 rs.handle)
        else a)) ∧
    (ro = false →
      handleRead (handleAssign s1 rs.handle w) rs.handle = w ∧
      readCell (handleAssign s1 rs.handle w) rs.setterCell = w) := by
  simp only [useRefState, refAlloc] at hcreate
  injection hcreate with hs1 hrs
  subst hs1
  subst hrs
  refine ⟨rfl, rfl, ?_, ?_⟩
  · intro a
    by_cases hf : setterIsFunction a <;>
      simp [handleRead, setState, hf, readCell_writeCell_same]
  · intro hro
    subst hro
    constructor <;>
      simp [handleRead, handleAssign, readCell_writeCell_same]

/-- Witness for claim C7: with a mutable handle over a cell created with
value `1`, a direct assignment of `8` through the handle is read back
through the same handle. -/
theorem c7_witness :
    handleRead
      (handleAssign (useRefState emptyStore (JSValue.numVal 1) false).1
        (useRefState emptyStore (JSValue.numVal 1) false).2.handle
        (JSValue.numVal 8))
      (useRefState emptyStore (JSValue.numVal 1) false).2.handle
      = JSValue.numVal 8 :=
  ((c7_shared_cell (fun _ _ => JSValue.undef) emptyStore
      (useRefState emptyStore (JSValue.numVal 1) false).1
      (useRefState emptyStore (JSValue.numVal 1) false).2
      (JSValue.numVal 1) (JSValue.numVal 8) false rfl).2.2.2 rfl).1

/-- Claim C8: for every initial value `x`, the handle returned by
`useRefState x` reads `x` immediately after creation, and with no
arguments the handle reads `undefined`. -/
theorem c8_initial_value (s : Store) (x : JSValue) (ro : Bool) :
    handleRead (useRefState s x ro).1 (useRefState s x ro).2.handle = x ∧
    handleRead (useRefStateNoArgs s).1 (useRefStateNoArgs s).2.handle =
      JSValue.undef := by
  constructor <;>
    simp [useRefState, useRefStateNoArgs, refAlloc, handleRead, readCell]

theorem applyMutation_frame (env : FnEnv) (rs : RefState) (s : Store)
    (m : Mutation) (j : Nat) (h1 : j ≠ rs.setterCell)
    (h2 : j ≠ rs.handle.cellId) :
    readCell (applyMutation env rs s m) j = readCell s j := by
  cases m with
  | set arg =>
      by_cases hf : setterIsFunction arg <;>
        simp [applyMutation, setState, hf,
          readCell_writeCell_ne _ _ _ _ h1]
  | assign v =>
      by_cases hro : rs.handle.isReadonly <;>
        simp [applyMutation, handleAssign, hro,
          readCell_writeCell_ne _ _ _ _ h2]

theorem applyMutations_frame (env : FnEnv) (rs : RefState) (j : Nat)
    (h1 : j ≠ rs.setterCell) (h2 : j ≠ rs.handle.cellId)
    (ms : List Mutation) :
    ∀ s, readCell (applyMutations env rs s ms) j = readCell s j := by
  induction ms with
  | nil => intro s; rfl
  | cons m rest ih =>
      intro s
      have hstep : applyMutations env rs s (m :: rest) =
          applyMutations env rs (applyMutation env rs s m) rest := rfl
      rw [hstep, ih, applyMutation_frame env rs s m j h1 h2]

/-- Claim C9: two successive `useRefState` invocations allocate distinct
cells, and any sequence of mutations (setter invocations or direct
assignments) applied through one paired state leaves the value observed
through the handle of the other unchanged, in both directions. -/
theorem c9_independent_cells (env : FnEnv) (s s1 s2 : Store)
    (rs1 rs2 : RefState) (v1 v2 : JSValue) (ro1 ro2 : Bool)
    (h1 : useRefState s v1 ro1 = (s1, rs1))
    (h2 : useRefState s1 v2 ro2 = (s2, rs2)) (ms : List Mutation) :
    rs1.setterCell ≠ rs2.setterCell ∧
    handleRead (applyMutations env rs2 s2 ms) rs1.handle =
      handleRead s2 rs1.handle ∧
    handleRead (applyMutations env rs1 s2 ms) rs2.handle =
      handleRead s2 rs2.handle := by
  simp only [useRefState, refAlloc] at h1 h2
  injection h1 with hs1 hrs1
  injection h2 with hs2 hrs2
  have hnext : s1.nextId = s.nextId + 1 := by
    rw [← hs1]
  have hset1 : rs1.setterCell = s.nextId := by
    rw [← hrs1]
  have hcell1 : rs1.handle.cellId = s.nextId := by
    rw [← hrs1]
  have hset2 : rs2.setterCell = s.nextId + 1 := by
    rw [← hrs2]
    exact hnext
  have hcell2 : rs2.handle.cellId = s.nextId + 1 := by
    rw [← hrs2]
    exact hnext
  refine ⟨?_, ?_, ?_⟩
  · rw [hset1, hset2]
    omega
  · simp only [handleRead]
    exact applyMutations_frame env rs2 rs1.handle.cellId
      (by rw [hcell1, hset2]; omega) (by rw [hcell1, hcell2]; omega) ms s2
  · simp only [handleRead]
    exact applyMutations_frame env rs1 rs2.handle.cellId
      (by rw [hcell2, hset1]; omega) (by rw [hcell2, hcell1]; omega) ms s2

/-- Witness for claim C9: after creating two paired states and running a
setter invocation followed by a direct assignment on the second, the
handle of the first still reads its own value. -/
theorem c9_witness :
    handleRead
      (applyMutations (fun _ _ => JSValue.undef)
        (useRefState (useRefState emptyStore (JSValue.numVal 1) true).1
          (JSValue.numVal 2) false).2
        (useRefState (useRefState emptyStore (JSValue.numVal 1) true).1
          (JSValue.numVal 2) false).1
        [Mutation.set (JSValue.numVal 9),
          Mutation.assign (JSValue.numVal 3)])
      (useRefState emptyStore (JSValue.numVal 1) true).2.handle
      = handleRead
        (useRefState (useRefState emptyStore (JSValue.numVal 1) true).1
          (JSValue.numVal 2) false).1
        (useRefState emptyStore (JSValue.numVal 1) true).2.handle :=
  (c9_independent_cells (fun _ _ => JSValue.undef) emptyStore
    (useRefState emptyStore (JSValue.numVal 1) true).1
    (useRefState (useRefState emptyStore (JSValue.numVal 1) true).1
      (JSValue.numVal 2) false).1
    (useRefState emptyStore (JSValue.numVal 1) true).2
    (useRefState (useRefState emptyStore (JSValue.numVal 1) true).1
      (JSValue.numVal 2) false).2
    (JSValue.numVal 1) (JSValue.numVal 2) true false rfl rfl
    [Mutation.set (JSValue.numVal 9),
      Mutation.assign (JSValue.numVal 3)]).2.1

/-- Claim C10: with the access mode defaulted (which is the same as
passing `true`), the returned handle is read-only, and a direct runtime
assignment through it leaves the store completely unchanged, so
subsequent reads through the handle and through the setter view still see
the prior value. -/
theorem c10_readonly_assign_ignored (s s1 : Store) (rs : RefState)
    (init v : JSValue)
    (hcreate : useRefStateDefault s init = (s1, rs)) :
    useRefStateDefault s init = useRefState s init true ∧
    rs.handle.isReadonly = true ∧
    handleAssign s1 rs.handle v = s1 ∧
    handleRead (handleAssign s1 rs.handle v) rs.handle =
      handleRead s1 rs.handle ∧
    readCell (handleAssign s1 rs.handle v) rs.setterCell =
      readCell s1 rs.setterCell := by
  simp only [useRefStateDefault, useRefState, refAlloc] at hcreate
  injection hcreate with hs1 hrs
  subst hs1
  subst hrs
  refine ⟨rfl, rfl, rfl, rfl, rfl⟩

/-- Witness for claim C10: a direct assignment of `9` through the
read-only handle of a defaulted `useRefState` over initial value `4`
leaves the store unchanged. -/
theorem c10_witness :
    handleAssign (useRefStateDefault emptyStore (JSValue.numVal 4)).1
      (useRefStateDefault emptyStore (JSValue.numVal 4)).2.handle
      (JSValue.numVal 9)
      = (useRefStateDefault emptyStore (JSValue.numVal 4)).1 :=
  (c10_readonly_assign_ignored emptyStore
    (useRefStateDefault emptyStore (JSValue.numVal 4)).1
    (useRefStateDefault emptyStore (JSValue.numVal 4)).2
    (JSValue.numVal 4) (JSValue.numVal 9) rfl).2.2.1
